import Mathlib

/-!
Verification of the Colibri fungible-token contract
(src/_internal/contracts/fungible-token/src/contract.rs).

The contract wires OpenZeppelin-style Stellar/Soroban building blocks:
an ownership guard, a pause guard, an upgradeable hook and the `Base`
fungible-token ledger. The wiring (which guards protect which entry
point, the constructor's constants, the upgrade authorization hook) is
taken from the source file. The building blocks themselves
(`stellar_access::ownable`, `stellar_contract_utils::pausable`,
`stellar_tokens::fungible::Base`, the `only_owner` / `when_not_paused`
attribute macros and the host's transactional execution) live outside
this repository, so their semantics are modelled from the spec, as
indicated on each definition.
-/

namespace Colibri

/-- Addresses are modelled as natural numbers; only decidable equality
of addresses is used by the contract. -/
abbrev Address := Nat

/-- Host authentication: `auth a = true` means the host has
cryptographically authenticated address `a` for this invocation
(`a.require_auth()` succeeds). -/
abbrev Auth := Address → Bool

/-- The error kinds of the spec (§7). -/
inductive ContractError where
  | Unauthorized
  | ContractPaused
  | InsufficientBalance
  | InsufficientAllowance
  | InvalidAmount
  | AlreadyInitialized
  deriving DecidableEq, Repr

/-- Token metadata, set once by the constructor. -/
structure Metadata where
  decimals : Nat
  name : String
  symbol : String
  deriving DecidableEq, Repr

/-- The contract-durable storage (spec §3) plus the installed code
(identified by a number), which the upgrade entry point may replace. -/
structure State where
  balances : Address → Int
  totalSupply : Int
  allowances : Address → Address → Int
  owner : Option Address
  pausedFlag : Bool
  metadata : Option Metadata
  code : Nat

/-- Storage of a freshly deployed, not yet constructed contract. -/
def initialState : State :=
  { balances := fun _ => 0
    totalSupply := 0
    allowances := fun _ _ => 0
    owner := none
    pausedFlag := false
    metadata := none
    code := 0 }

/-- Pointwise update of a balance map. -/
def setBal (b : Address → Int) (a : Address) (v : Int) : Address → Int :=
  fun x => if x = a then v else b x

/-- Debit `src` and credit `dst` by `amount` in a balance map; the two
writes happen in order, so a self-move leaves the map intact. -/
def moveBal (b : Address → Int) (src dst : Address) (amount : Int) : Address → Int :=
  let b1 := setBal b src (b src - amount)
  setBal b1 dst (b1 dst + amount)

namespace ownable

/-- Modelled from the spec (§4.1): `stellar_access::ownable::set_owner`
is not under src/; it persists the Owner entity. -/
def set_owner (s : State) (o : Address) : State :=
  { s with owner := some o }

/-- Modelled from the spec (§4.1):
`stellar_access::ownable::enforce_owner_auth` is not under src/; it
fails with `Unauthorized` unless the caller is authenticated (by the
host) as the stored owner. -/
def enforce_owner_auth (auth : Auth) (s : State) : Except ContractError Unit :=
  match s.owner with
  | some o => if auth o = true then .ok () else .error .Unauthorized
  | none => .error .Unauthorized

end ownable

namespace pausable

/-- Modelled from the spec (§4.2): `paused()` reads the flag. -/
def paused (s : State) : Bool :=
  s.pausedFlag

/-- Modelled from the spec (§4.2): `pause` sets the flag; it is not
guarded against redundant calls (calling it while already paused
succeeds and leaves state unchanged). -/
def pause (s : State) : State :=
  { s with pausedFlag := true }

/-- Modelled from the spec (§4.2): `unpause` clears the flag, with the
same redundant-call behaviour as `pause`. -/
def unpause (s : State) : State :=
  { s with pausedFlag := false }

/-- Modelled from the spec (§4.2): the "when-not-paused" guard reads
`paused()` and fails with `ContractPaused` if true. -/
def require_not_paused (s : State) : Except ContractError Unit :=
  if s.pausedFlag = true then .error .ContractPaused else .ok ()

end pausable

/-- Modelled from the spec (§4.1, §6): host-delegated authorization of
a single address (`from`/`spender` self-authorization). -/
def require_auth (auth : Auth) (a : Address) : Except ContractError Unit :=
  if auth a = true then .ok () else .error .Unauthorized

namespace Base

/-- Modelled from the spec (§4.4): `Base::set_metadata` is not under
src/; it stores the token metadata. -/
def set_metadata (s : State) (d : Nat) (n sym : String) : State :=
  { s with metadata := some ⟨d, n, sym⟩ }

/-- Modelled from the spec (§4.4): `Base::mint` is not under src/; it
fails with `InvalidAmount` if amount ≤ 0, else increases the account's
balance and the total supply by the amount. -/
def mint (s : State) (account : Address) (amount : Int) : Except ContractError State :=
  if amount ≤ 0 then .error .InvalidAmount
  else .ok { s with
    balances := setBal s.balances account (s.balances account + amount)
    totalSupply := s.totalSupply + amount }

/-- Modelled from the spec (§4.4): the balance-moving core of
`Base::transfer` (not under src/); fails with `InvalidAmount` if
amount ≤ 0, with `InsufficientBalance` if amount exceeds the source
balance, else atomically debits the source and credits the
destination. -/
def transfer (s : State) (src dst : Address) (amount : Int) : Except ContractError State :=
  if amount ≤ 0 then .error .InvalidAmount
  else if s.balances src < amount then .error .InsufficientBalance
  else .ok { s with balances := moveBal s.balances src dst amount }

/-- Modelled from the spec (§4.4): the balance-destroying core of
`Base::burn` (not under src/); mirrors `transfer` but destroys the
debited amount, reducing total supply. -/
def burn (s : State) (src : Address) (amount : Int) : Except ContractError State :=
  if amount ≤ 0 then .error .InvalidAmount
  else if s.balances src < amount then .error .InsufficientBalance
  else .ok { s with
    balances := setBal s.balances src (s.balances src - amount)
    totalSupply := s.totalSupply - amount }

/-- Modelled from the spec (§4.4): allowance spending for
`transfer_from`/`burn_from` (not under src/); fails with
`InsufficientAllowance` if the allowance is below the amount, else
decrements it. -/
def spend_allowance (s : State) (ownr spender : Address) (amount : Int) :
    Except ContractError State :=
  if s.allowances ownr spender < amount then .error .InsufficientAllowance
  else .ok { s with
    allowances := fun x y =>
      if x = ownr ∧ y = spender then s.allowances ownr spender - amount
      else s.allowances x y }

end Base

/-- The fixed initial supply minted by the constructor
(src/contract.rs line 20). -/
def initialSupply : Int := 100000000000000000000000

namespace ColibriToken

/-- From src/contract.rs lines 18-22: set metadata (decimals 18, name
"ColibriToken", symbol "CLBT"), mint the fixed initial supply to
`recipient`, set the owner. -/
def constructor (recipient owner_ : Address) : Except ContractError State := do
  let s0 := Base.set_metadata initialState 18 "ColibriToken" "CLBT"
  let s1 ← Base.mint s0 recipient initialSupply
  pure (ownable.set_owner s1 owner_)

/-- From src/contract.rs lines 24-28: `mint` is `#[only_owner]` then
`#[when_not_paused]`; per the spec (§4.4) the owner-authorization
check comes before the pause check (the macro expansion itself is not
under src/ and is modelled from the spec's error order). -/
def mint (auth : Auth) (s : State) (account : Address) (amount : Int) :
    Except ContractError State := do
  ownable.enforce_owner_auth auth s
  pausable.require_not_paused s
  Base.mint s account amount

/-- From src/contract.rs lines 36-39: `transfer` is
`#[when_not_paused]` and requires the source's host authorization
(spec §4.4, §6). -/
def transfer (auth : Auth) (s : State) (src dst : Address) (amount : Int) :
    Except ContractError State := do
  pausable.require_not_paused s
  require_auth auth src
  Base.transfer s src dst amount

/-- From src/contract.rs lines 41-44: `transfer_from` is
`#[when_not_paused]`, requires the spender's host authorization and
spends the (source, spender) allowance before moving balance. -/
def transfer_from (auth : Auth) (s : State) (spender src dst : Address) (amount : Int) :
    Except ContractError State := do
  pausable.require_not_paused s
  require_auth auth spender
  let s1 ← Base.spend_allowance s src spender amount
  Base.transfer s1 src dst amount

/-- From src/contract.rs lines 53-56: `burn` is `#[when_not_paused]`
and requires the source's host authorization. -/
def burn (auth : Auth) (s : State) (src : Address) (amount : Int) :
    Except ContractError State := do
  pausable.require_not_paused s
  require_auth auth src
  Base.burn s src amount

/-- From src/contract.rs lines 58-61: `burn_from` is
`#[when_not_paused]`, requires the spender's host authorization and
spends the allowance before burning. -/
def burn_from (auth : Auth) (s : State) (spender src : Address) (amount : Int) :
    Except ContractError State := do
  pausable.require_not_paused s
  require_auth auth spender
  let s1 ← Base.spend_allowance s src spender amount
  Base.burn s1 src amount

/-- From src/contract.rs lines 80-83: `pause` is `#[only_owner]`. -/
def pause (auth : Auth) (s : State) (_caller : Address) :
    Except ContractError State := do
  ownable.enforce_owner_auth auth s
  pure (pausable.pause s)

/-- From src/contract.rs lines 85-88: `unpause` is `#[only_owner]`. -/
def unpause (auth : Auth) (s : State) (_caller : Address) :
    Except ContractError State := do
  ownable.enforce_owner_auth auth s
  pure (pausable.unpause s)

/-- From src/contract.rs lines 76-78: `paused` reads the flag. -/
def paused (s : State) : Bool :=
  pausable.paused s

/-- From src/contract.rs lines 68-72: the upgradeable hook
`_require_auth` delegates to `ownable::enforce_owner_auth`. -/
def _require_auth (auth : Auth) (s : State) (_operator : Address) :
    Except ContractError Unit :=
  ownable.enforce_owner_auth auth s

/-- Modelled from the spec (§4.3): the host's upgrade mechanism (not
under src/) calls the contract's authorization hook and, on success,
atomically swaps the installed code, leaving all other state
untouched. -/
def upgrade (auth : Auth) (s : State) (operator : Address) (newCode : Nat) :
    Except ContractError State := do
  ColibriToken._require_auth auth s operator
  pure { s with code := newCode }

end ColibriToken

/-- One public state-changing invocation of the contract. -/
inductive Call where
  | mintC (account : Address) (amount : Int)
  | transferC (src dst : Address) (amount : Int)
  | transferFromC (spender src dst : Address) (amount : Int)
  | burnC (src : Address) (amount : Int)
  | burnFromC (spender src : Address) (amount : Int)
  | pauseC (caller : Address)
  | unpauseC (caller : Address)
  | upgradeC (operator : Address) (newCode : Nat)

/-- Dispatch a call to the contract's entry points. -/
def execute (auth : Auth) (c : Call) (s : State) : Except ContractError State :=
  match c with
  | .mintC account amount => ColibriToken.mint auth s account amount
  | .transferC src dst amount => ColibriToken.transfer auth s src dst amount
  | .transferFromC spender src dst amount =>
      ColibriToken.transfer_from auth s spender src dst amount
  | .burnC src amount => ColibriToken.burn auth s src amount
  | .burnFromC spender src amount => ColibriToken.burn_from auth s spender src amount
  | .pauseC caller => ColibriToken.pause auth s caller
  | .unpauseC caller => ColibriToken.unpause auth s caller
  | .upgradeC operator newCode => ColibriToken.upgrade auth s operator newCode

/-- Modelled from the spec (§5, §7): the host executes each invocation
as one transaction — on success the new storage is committed, on any
failure every effect of the invocation is rolled back and the storage
is exactly the pre-call storage. -/
def hostRun (auth : Auth) (c : Call) (s : State) : State :=
  match execute auth c s with
  | .ok s' => s'
  | .error _ => s

/-- The not-paused guard passes when the flag is clear. -/
theorem require_not_paused_ok (s : State) (h : s.pausedFlag = false) :
    pausable.require_not_paused s = .ok () := by
  simp [pausable.require_not_paused, h]

/-- Host authorization of an authenticated address passes. -/
theorem require_auth_ok (auth : Auth) (a : Address) (h : auth a = true) :
    require_auth auth a = .ok () := by
  simp [require_auth, h]

/-- The ownership guard passes for a host-authenticated stored owner. -/
theorem enforce_owner_auth_ok (auth : Auth) (s : State) (o : Address)
    (howner : s.owner = some o) (hauth : auth o = true) :
    ownable.enforce_owner_auth auth s = .ok () := by
  simp [ownable.enforce_owner_auth, howner, hauth]

/-! Sample data used by the witness theorems. -/

/-- A sample constructed state: owner is address 1, address 2 holds
1000 units, not paused. -/
def sampleState : State :=
  { balances := fun a => if a = 2 then 1000 else 0
    totalSupply := 1000
    allowances := fun _ _ => 0
    owner := some 1
    pausedFlag := false
    metadata := some ⟨18, "ColibriToken", "CLBT"⟩
    code := 0 }

/-- The sample state with the pause flag set. -/
def samplePaused : State :=
  { sampleState with pausedFlag := true }

/-- Host authentication that authenticates every address. -/
def authAll : Auth := fun _ => true

/-- Host authentication that authenticates nobody. -/
def authNone : Auth := fun _ => false

/-! ## C1: constructor -/

/-- C1: after `constructor(recipient, owner)` on a fresh contract, the
recipient holds 100000 · 10^18 base units, every other address holds 0,
total supply is 100000 · 10^18, the owner is the given owner, the
contract is not paused, and the metadata is decimals 18, name
"ColibriToken", symbol "CLBT". -/
theorem constructor_initial_state (recipient owner_ : Address) :
    ∃ s, ColibriToken.constructor recipient owner_ = .ok s ∧
      s.balances recipient = 100000 * 10 ^ 18 ∧
      (∀ a, a ≠ recipient → s.balances a = 0) ∧
      s.totalSupply = 100000 * 10 ^ 18 ∧
      s.owner = some owner_ ∧
      s.pausedFlag = false ∧
      s.metadata = some ⟨18, "ColibriToken", "CLBT"⟩ := by
  refine ⟨_, rfl, ?_, ?_, ?_, rfl, rfl, rfl⟩
  · simp [ColibriToken.constructor, Base.set_metadata, Base.mint, initialState,
      initialSupply, ownable.set_owner, setBal]
  · intro a ha
    simp [ColibriToken.constructor, Base.set_metadata, Base.mint, initialState,
      initialSupply, ownable.set_owner, setBal, ha]
  · simp [ColibriToken.constructor, Base.set_metadata, Base.mint, initialState,
      initialSupply, ownable.set_owner]

/-- C1 witness: the constructor evaluated at recipient 3, owner 5,
checking a concrete non-recipient address 4. -/
theorem constructor_initial_state_witness :
    ∃ s, ColibriToken.constructor 3 5 = .ok s ∧
      s.balances 3 = 100000 * 10 ^ 18 ∧
      s.balances 4 = 0 ∧
      s.totalSupply = 100000 * 10 ^ 18 ∧
      s.owner = some 5 ∧
      s.pausedFlag = false ∧
      s.metadata = some ⟨18, "ColibriToken", "CLBT"⟩ := by
  obtain ⟨s, h1, h2, h3, h4, h5, h6, h7⟩ := constructor_initial_state 3 5
  exact ⟨s, h1, h2, h3 4 (by decide), h4, h5, h6, h7⟩

/-! ## C2: pause idempotence -/

/-- Setting an already-set pause flag leaves the storage unchanged. -/
theorem pausable_pause_of_paused (s : State) (h : s.pausedFlag = true) :
    pausable.pause s = s := by
  cases s with
  | mk b t al o p m c =>
    simp only at h
    simp [pausable.pause, h]

/-- C2: an owner-authorized `pause` while already paused succeeds and
leaves all state unchanged, and two consecutive owner `pause` calls
both succeed with `paused() = true` after each. -/
theorem pause_idempotent (auth : Auth) (s : State) (caller o : Address)
    (howner : s.owner = some o) (hauth : auth o = true) :
    (s.pausedFlag = true → ColibriToken.pause auth s caller = .ok s) ∧
    ∃ s1, ColibriToken.pause auth s caller = .ok s1 ∧
      ColibriToken.paused s1 = true ∧
      ColibriToken.pause auth s1 caller = .ok s1 ∧
      ColibriToken.paused s1 = true := by
  have hok : ColibriToken.pause auth s caller = .ok (pausable.pause s) := by
    simp [ColibriToken.pause, ownable.enforce_owner_auth, howner, hauth]
  constructor
  · intro hp
    rw [hok, pausable_pause_of_paused s hp]
  · refine ⟨pausable.pause s, hok, rfl, ?_, rfl⟩
    have hok2 : ColibriToken.pause auth (pausable.pause s) caller =
        .ok (pausable.pause (pausable.pause s)) := by
      simp [ColibriToken.pause, ownable.enforce_owner_auth, pausable.pause, howner, hauth]
    rw [hok2, pausable_pause_of_paused (pausable.pause s) rfl]

/-- C2 witness: owner-authorized `pause` on the concrete paused sample
state succeeds and changes nothing; two consecutive pauses from the
unpaused sample state both succeed with the flag set. -/
theorem pause_idempotent_witness :
    (ColibriToken.pause authAll samplePaused 1 = .ok samplePaused) ∧
    ∃ s1, ColibriToken.pause authAll sampleState 1 = .ok s1 ∧
      ColibriToken.paused s1 = true ∧
      ColibriToken.pause authAll s1 1 = .ok s1 ∧
      ColibriToken.paused s1 = true :=
  ⟨(pause_idempotent authAll samplePaused 1 1 rfl rfl).1 rfl,
   (pause_idempotent authAll sampleState 1 1 rfl rfl).2⟩

/-! ## C3: mint InvalidAmount characterization -/

/-- C3: an owner-authenticated `mint` while not paused fails with
`InvalidAmount` exactly when the amount is ≤ 0; for a positive amount
it succeeds and increases the account's balance and the total supply
by exactly that amount. -/
theorem mint_invalid_amount_iff (auth : Auth) (s : State) (account : Address)
    (amount : Int) (o : Address)
    (howner : s.owner = some o) (hauth : auth o = true) (hnp : s.pausedFlag = false) :
    (ColibriToken.mint auth s account amount = .error .InvalidAmount ↔ amount ≤ 0) ∧
    (0 < amount → ∃ s', ColibriToken.mint auth s account amount = .ok s' ∧
      s'.balances account = s.balances account + amount ∧
      s'.totalSupply = s.totalSupply + amount) := by
  have hguards : ColibriToken.mint auth s account amount = Base.mint s account amount := by
    simp only [ColibriToken.mint, ownable.enforce_owner_auth, pausable.require_not_paused,
      howner, hauth, hnp]
    rfl
  rw [hguards]
  constructor
  · constructor
    · intro h
      by_contra hle
      simp [Base.mint, hle] at h
    · intro h
      simp [Base.mint, h]
  · intro hpos
    have hnle : ¬ amount ≤ 0 := by omega
    refine ⟨{ s with
        balances := setBal s.balances account (s.balances account + amount)
        totalSupply := s.totalSupply + amount }, ?_, ?_, rfl⟩
    · simp [Base.mint, hnle]
    · simp [setBal]

/-- C3 witness: owner-authenticated mint on the sample state fails with
`InvalidAmount` at amount 0 and succeeds at amount 5, raising the
balance of account 2 from 1000 to 1005 and the supply to 1005. -/
theorem mint_invalid_amount_iff_witness :
    (ColibriToken.mint authAll sampleState 2 0 = .error .InvalidAmount) ∧
    ∃ s', ColibriToken.mint authAll sampleState 2 5 = .ok s' ∧
      s'.balances 2 = 1005 ∧ s'.totalSupply = 1005 := by
  refine ⟨((mint_invalid_amount_iff authAll sampleState 2 0 1 rfl rfl rfl).1).2 (by decide), ?_⟩
  obtain ⟨s', hok, hbal, hsup⟩ :=
    (mint_invalid_amount_iff authAll sampleState 2 5 1 rfl rfl rfl).2 (by decide)
  refine ⟨s', hok, ?_, ?_⟩
  · rw [hbal]; decide
  · rw [hsup]; decide

/-! ## C4: mint by non-owner -/

/-- C4: for a positive amount and a caller that is not authenticated as
the stored owner, `mint` fails with `Unauthorized` and the host leaves
every piece of persisted state unchanged. -/
theorem mint_unauthorized (auth : Auth) (s : State) (account : Address)
    (amount : Int) (o : Address)
    (howner : s.owner = some o) (hauth : auth o = false) (hpos : 0 < amount) :
    ColibriToken.mint auth s account amount = .error .Unauthorized ∧
    hostRun auth (Call.mintC account amount) s = s := by
  have herr : ColibriToken.mint auth s account amount = .error .Unauthorized := by
    simp only [ColibriToken.mint, ownable.enforce_owner_auth, howner, hauth]
    rfl
  exact ⟨herr, by simp [hostRun, execute, herr]⟩

/-- C4 witness: a mint of 5 units with nobody authenticated fails with
`Unauthorized` on the sample state, which is returned unchanged. -/
theorem mint_unauthorized_witness :
    ColibriToken.mint authNone sampleState 2 5 = .error .Unauthorized ∧
    hostRun authNone (Call.mintC 2 5) sampleState = sampleState :=
  mint_unauthorized authNone sampleState 2 5 1 rfl rfl (by decide)

/-! ## C5: pause gates the balance-mutating operations -/

/-- C5: while paused, `transfer`, owner-authenticated `mint`, `burn`,
`transfer_from` and `burn_from` all fail with `ContractPaused` and the
host leaves the state unchanged, while owner-authorized `pause` and
`unpause` succeed from any state. -/
theorem paused_blocks_operations (auth : Auth) (s : State)
    (o src dst spender account caller : Address) (amount : Int)
    (howner : s.owner = some o) (hauth : auth o = true)
    (hp : s.pausedFlag = true) (hpos : 0 < amount) :
    ColibriToken.transfer auth s src dst amount = .error .ContractPaused ∧
    ColibriToken.mint auth s account amount = .error .ContractPaused ∧
    ColibriToken.burn auth s src amount = .error .ContractPaused ∧
    ColibriToken.transfer_from auth s spender src dst amount = .error .ContractPaused ∧
    ColibriToken.burn_from auth s spender src amount = .error .ContractPaused ∧
    hostRun auth (Call.transferC src dst amount) s = s ∧
    hostRun auth (Call.mintC account amount) s = s ∧
    hostRun auth (Call.burnC src amount) s = s ∧
    hostRun auth (Call.transferFromC spender src dst amount) s = s ∧
    hostRun auth (Call.burnFromC spender src amount) s = s ∧
    (∀ s' : State, s'.owner = some o → auth o = true →
      (∃ t, ColibriToken.pause auth s' caller = .ok t) ∧
      (∃ u, ColibriToken.unpause auth s' caller = .ok u)) := by
  have hT : ColibriToken.transfer auth s src dst amount = .error .ContractPaused := by
    simp only [ColibriToken.transfer, pausable.require_not_paused, hp]
    rfl
  have hM : ColibriToken.mint auth s account amount = .error .ContractPaused := by
    simp only [ColibriToken.mint, ownable.enforce_owner_auth,
      pausable.require_not_paused, howner, hauth, hp]
    rfl
  have hB : ColibriToken.burn auth s src amount = .error .ContractPaused := by
    simp only [ColibriToken.burn, pausable.require_not_paused, hp]
    rfl
  have hTF : ColibriToken.transfer_from auth s spender src dst amount
      = .error .ContractPaused := by
    simp only [ColibriToken.transfer_from, pausable.require_not_paused, hp]
    rfl
  have hBF : ColibriToken.burn_from auth s spender src amount = .error .ContractPaused := by
    simp only [ColibriToken.burn_from, pausable.require_not_paused, hp]
    rfl
  refine ⟨hT, hM, hB, hTF, hBF, ?_, ?_, ?_, ?_, ?_, ?_⟩
  · simp [hostRun, execute, hT]
  · simp [hostRun, execute, hM]
  · simp [hostRun, execute, hB]
  · simp [hostRun, execute, hTF]
  · simp [hostRun, execute, hBF]
  · intro s' howner' hauth'
    constructor
    · refine ⟨pausable.pause s', ?_⟩
      simp only [ColibriToken.pause, ownable.enforce_owner_auth, howner', hauth']
      rfl
    · refine ⟨pausable.unpause s', ?_⟩
      simp only [ColibriToken.unpause, ownable.enforce_owner_auth, howner', hauth']
      rfl

/-- C5 witness: on the concrete paused sample state, every
balance-mutating operation fails with `ContractPaused` and leaves the
state unchanged, while the owner can still pause and unpause. -/
theorem paused_blocks_operations_witness :
    ColibriToken.transfer authAll samplePaused 2 3 5 = .error .ContractPaused ∧
    ColibriToken.mint authAll samplePaused 2 5 = .error .ContractPaused ∧
    ColibriToken.burn authAll samplePaused 2 5 = .error .ContractPaused ∧
    ColibriToken.transfer_from authAll samplePaused 4 2 3 5 = .error .ContractPaused ∧
    ColibriToken.burn_from authAll samplePaused 4 2 5 = .error .ContractPaused ∧
    hostRun authAll (Call.transferC 2 3 5) samplePaused = samplePaused ∧
    hostRun authAll (Call.mintC 2 5) samplePaused = samplePaused ∧
    hostRun authAll (Call.burnC 2 5) samplePaused = samplePaused ∧
    hostRun authAll (Call.transferFromC 4 2 3 5) samplePaused = samplePaused ∧
    hostRun authAll (Call.burnFromC 4 2 5) samplePaused = samplePaused ∧
    (∀ s' : State, s'.owner = some 1 → authAll 1 = true →
      (∃ t, ColibriToken.pause authAll s' 1 = .ok t) ∧
      (∃ u, ColibriToken.unpause authAll s' 1 = .ok u)) :=
  paused_blocks_operations authAll samplePaused 1 2 3 4 2 1 5 rfl rfl rfl (by decide)

/-! ## C10: mint checks ownership before the pause flag -/

/-- C10: a `mint` by a caller that is not authenticated as the owner,
made while the contract is paused, fails with `Unauthorized`, not
`ContractPaused`: the owner-authorization guard runs first. -/
theorem mint_unauthorized_while_paused (auth : Auth) (s : State)
    (account : Address) (amount : Int) (o : Address)
    (howner : s.owner = some o) (hauth : auth o = false)
    (hp : s.pausedFlag = true) :
    ColibriToken.mint auth s account amount = .error .Unauthorized := by
  simp only [ColibriToken.mint, ownable.enforce_owner_auth, howner, hauth]
  rfl

/-- C10 witness: with nobody authenticated and the sample state
paused, mint of 5 units to account 2 fails with `Unauthorized`. -/
theorem mint_unauthorized_while_paused_witness :
    ColibriToken.mint authNone samplePaused 2 5 = .error .Unauthorized :=
  mint_unauthorized_while_paused authNone samplePaused 2 5 1 rfl rfl rfl

/-! ## C6: transfer with insufficient balance -/

/-- C6: a transfer (not paused, source authorized) of more than the
source's non-negative balance fails with `InsufficientBalance`, and
the balances of source and destination are unchanged afterward. -/
theorem transfer_insufficient_balance (auth : Auth) (s : State)
    (src dst : Address) (amount : Int)
    (hnp : s.pausedFlag = false) (hauth : auth src = true)
    (hnn : 0 ≤ s.balances src) (hlt : s.balances src < amount) :
    ColibriToken.transfer auth s src dst amount = .error .InsufficientBalance ∧
    (hostRun auth (Call.transferC src dst amount) s).balances src = s.balances src ∧
    (hostRun auth (Call.transferC src dst amount) s).balances dst = s.balances dst := by
  have hnle : ¬ amount ≤ 0 := by omega
  have herr : ColibriToken.transfer auth s src dst amount = .error .InsufficientBalance := by
    simp only [ColibriToken.transfer, pausable.require_not_paused, require_auth, hnp, hauth]
    simp only [Base.transfer, if_neg hnle, if_pos hlt]
    rfl
  exact ⟨herr, by simp [hostRun, execute, herr], by simp [hostRun, execute, herr]⟩

/-- C6 witness: transferring 2000 units out of account 2 (balance
1000) on the sample state fails with `InsufficientBalance` and leaves
the balances of accounts 2 and 3 at 1000 and 0. -/
theorem transfer_insufficient_balance_witness :
    ColibriToken.transfer authAll sampleState 2 3 2000 = .error .InsufficientBalance ∧
    (hostRun authAll (Call.transferC 2 3 2000) sampleState).balances 2 = 1000 ∧
    (hostRun authAll (Call.transferC 2 3 2000) sampleState).balances 3 = 0 := by
  obtain ⟨h1, h2, h3⟩ :=
    transfer_insufficient_balance authAll sampleState 2 3 2000 rfl rfl (by decide) (by decide)
  refine ⟨h1, ?_, ?_⟩
  · rw [h2]; decide
  · rw [h3]; decide

/-! ## C7: transfer round trip -/

/-- A balance move reads the source slot before writing the
destination: for a destination distinct from the source, the
destination gains the amount. -/
theorem moveBal_dst (b : Address → Int) (src dst : Address) (x : Int) (h : dst ≠ src) :
    moveBal b src dst x dst = b dst + x := by
  simp [moveBal, setBal, h]

/-- For a source distinct from the destination, the source slot loses
the amount. -/
theorem moveBal_src (b : Address → Int) (src dst : Address) (x : Int) (h : src ≠ dst) :
    moveBal b src dst x src = b src - x := by
  simp [moveBal, setBal, h]

/-- A transfer whose guards and balance check all pass produces
exactly the debited/credited balance map. -/
theorem transfer_ok (auth : Auth) (s : State) (src dst : Address) (amount : Int)
    (hnp : s.pausedFlag = false) (ha : auth src = true)
    (h0 : ¬ amount ≤ 0) (hb : ¬ s.balances src < amount) :
    ColibriToken.transfer auth s src dst amount =
      .ok { s with balances := moveBal s.balances src dst amount } := by
  simp only [ColibriToken.transfer, require_not_paused_ok s hnp, require_auth_ok auth src ha]
  simp only [Base.transfer, if_neg h0, if_neg hb]
  rfl

/-- A transfer of a non-positive amount fails with `InvalidAmount`
when the pause and authorization guards pass. -/
theorem transfer_nonpos (auth : Auth) (s : State) (src dst : Address) (amount : Int)
    (hnp : s.pausedFlag = false) (ha : auth src = true) (h0 : amount ≤ 0) :
    ColibriToken.transfer auth s src dst amount = .error .InvalidAmount := by
  simp only [ColibriToken.transfer, require_not_paused_ok s hnp, require_auth_ok auth src ha]
  simp only [Base.transfer, if_pos h0]
  rfl

/-- C7: for distinct A and B with 0 ≤ x ≤ Balance(A) (and the
invariant 0 ≤ Balance(B)), `transfer(A,B,x)` followed by
`transfer(B,A,x)` — both not paused and authorized — restores the
original balances of A and B exactly, with total supply unchanged
throughout; for 0 < x both transfers in fact succeed. -/
theorem transfer_round_trip (auth : Auth) (s : State) (A B : Address) (x : Int)
    (hne : A ≠ B) (hnp : s.pausedFlag = false)
    (hA : auth A = true) (hB : auth B = true)
    (hx0 : 0 ≤ x) (hxA : x ≤ s.balances A) (hBnn : 0 ≤ s.balances B) :
    (hostRun auth (Call.transferC B A x)
        (hostRun auth (Call.transferC A B x) s)).balances A = s.balances A ∧
    (hostRun auth (Call.transferC B A x)
        (hostRun auth (Call.transferC A B x) s)).balances B = s.balances B ∧
    (hostRun auth (Call.transferC A B x) s).totalSupply = s.totalSupply ∧
    (hostRun auth (Call.transferC B A x)
        (hostRun auth (Call.transferC A B x) s)).totalSupply = s.totalSupply ∧
    (0 < x →
      (∃ t, ColibriToken.transfer auth s A B x = .ok t) ∧
      (∃ u, ColibriToken.transfer auth
        (hostRun auth (Call.transferC A B x) s) B A x = .ok u)) := by
  have hneBA : B ≠ A := Ne.symm hne
  by_cases hx : 0 < x
  · have hnle : ¬ x ≤ 0 := by omega
    have hblt1 : ¬ s.balances A < x := by omega
    have h1 := transfer_ok auth s A B x hnp hA hnle hblt1
    have hs1 : hostRun auth (Call.transferC A B x) s =
        { s with balances := moveBal s.balances A B x } := by
      simp [hostRun, execute, h1]
    rw [hs1]
    have hblt2 : ¬ ({ s with balances := moveBal s.balances A B x } : State).balances B < x := by
      show ¬ moveBal s.balances A B x B < x
      rw [moveBal_dst s.balances A B x hneBA]
      omega
    have h2 := transfer_ok auth { s with balances := moveBal s.balances A B x } B A x
      hnp hB hnle hblt2
    have hs2 : hostRun auth (Call.transferC B A x)
        { s with balances := moveBal s.balances A B x } =
        { s with balances := moveBal (moveBal s.balances A B x) B A x } := by
      simp [hostRun, execute, h2]
    rw [hs2]
    refine ⟨?_, ?_, rfl, rfl, fun _ => ⟨⟨_, h1⟩, ⟨_, h2⟩⟩⟩
    · show moveBal (moveBal s.balances A B x) B A x A = s.balances A
      rw [moveBal_dst (moveBal s.balances A B x) B A x hne,
        moveBal_src s.balances A B x hne]
      omega
    · show moveBal (moveBal s.balances A B x) B A x B = s.balances B
      rw [moveBal_src (moveBal s.balances A B x) B A x hneBA,
        moveBal_dst s.balances A B x hneBA]
      omega
  · have hle : x ≤ 0 := by omega
    have h1 := transfer_nonpos auth s A B x hnp hA hle
    have hs1 : hostRun auth (Call.transferC A B x) s = s := by
      simp [hostRun, execute, h1]
    rw [hs1]
    have h2 := transfer_nonpos auth s B A x hnp hB hle
    have hs2 : hostRun auth (Call.transferC B A x) s = s := by
      simp [hostRun, execute, h2]
    rw [hs2]
    exact ⟨rfl, rfl, rfl, rfl, fun hpos => absurd hpos hx⟩

/-- C7 witness: on the sample state, moving 300 units from account 2
to account 3 and back restores both balances (1000 and 0) with the
supply fixed at 1000, and both transfers succeed. -/
theorem transfer_round_trip_witness :
    (hostRun authAll (Call.transferC 3 2 300)
        (hostRun authAll (Call.transferC 2 3 300) sampleState)).balances 2 = 1000 ∧
    (hostRun authAll (Call.transferC 3 2 300)
        (hostRun authAll (Call.transferC 2 3 300) sampleState)).balances 3 = 0 ∧
    (hostRun authAll (Call.transferC 2 3 300) sampleState).totalSupply = 1000 ∧
    (hostRun authAll (Call.transferC 3 2 300)
        (hostRun authAll (Call.transferC 2 3 300) sampleState)).totalSupply = 1000 ∧
    (∃ t, ColibriToken.transfer authAll sampleState 2 3 300 = .ok t) := by
  obtain ⟨h1, h2, h3, h4, h5⟩ :=
    transfer_round_trip authAll sampleState 2 3 300 (by decide) rfl rfl rfl
      (by decide) (by decide) (by decide)
  exact ⟨by rw [h1]; decide, by rw [h2]; decide, by rw [h3]; decide,
    by rw [h4]; decide, (h5 (by decide)).1⟩

/-! ## C8: upgrade is owner-gated through the ownership guard -/

/-- C8: the upgradeable hook `_require_auth` is exactly the ownership
guard's `enforce_owner_auth`, and an upgrade attempted without the
stored owner's host authorization fails with `Unauthorized`, leaving
the installed code, every balance and all other persisted state
unchanged. -/
theorem upgrade_requires_owner (auth : Auth) (s : State)
    (operator : Address) (newCode : Nat) (o : Address)
    (howner : s.owner = some o) (hauth : auth o = false) :
    (∀ (a : Auth) (s' : State) (op' : Address),
      ColibriToken._require_auth a s' op' = ownable.enforce_owner_auth a s') ∧
    ColibriToken.upgrade auth s operator newCode = .error .Unauthorized ∧
    hostRun auth (Call.upgradeC operator newCode) s = s := by
  have herr : ColibriToken.upgrade auth s operator newCode = .error .Unauthorized := by
    simp only [ColibriToken.upgrade, ColibriToken._require_auth,
      ownable.enforce_owner_auth, howner, hauth]
    rfl
  exact ⟨fun _ _ _ => rfl, herr, by simp [hostRun, execute, herr]⟩

/-- C8 witness: an upgrade to code 7 with nobody authenticated fails
with `Unauthorized` on the sample state, which is returned unchanged
(in particular its installed code stays 0). -/
theorem upgrade_requires_owner_witness :
    ColibriToken.upgrade authNone sampleState 2 7 = .error .Unauthorized ∧
    hostRun authNone (Call.upgradeC 2 7) sampleState = sampleState ∧
    (hostRun authNone (Call.upgradeC 2 7) sampleState).code = 0 := by
  obtain ⟨_, h2, h3⟩ := upgrade_requires_owner authNone sampleState 2 7 1 rfl rfl
  exact ⟨h2, h3, by rw [h3]; rfl⟩

/-! ## C9: atomicity of every public operation -/

/-- C9: every public operation is atomic per invocation: whenever an
invocation fails with any error kind, the host transaction commits no
effect, so every piece of persisted state after the call is exactly
the pre-call state. -/
theorem atomic_rollback (auth : Auth) (c : Call) (s : State) (e : ContractError)
    (h : execute auth c s = .error e) :
    hostRun auth c s = s := by
  simp [hostRun, h]

/-- C9 witness: a failing invocation (mint by a non-authenticated
caller) leaves the concrete sample state untouched. -/
theorem atomic_rollback_witness :
    execute authNone (Call.mintC 2 5) sampleState = .error .Unauthorized ∧
    hostRun authNone (Call.mintC 2 5) sampleState = sampleState := by
  have h : execute authNone (Call.mintC 2 5) sampleState = .error .Unauthorized := rfl
  exact ⟨h, atomic_rollback authNone (Call.mintC 2 5) sampleState .Unauthorized h⟩

end Colibri
